import Mathlib

/-!
Verification of the kafkust broker-connectivity and message-sampling engine.

The definitions below are a shallow embedding of the Rust sources under
`src/src-tauri/src`: the domain types from `domain/cluster/cluster.rs` and
`domain/topic.rs`, the connection-parameter builder and the sampling consumer
from `infrastructure/kafka.rs`, the SQLite-backed cluster registry from
`infrastructure/persistence/sqlite_cluster_repository.rs`, and the
cluster use case from `usecase/cluster_usecase.rs`.

Machine-integer remarks: Kafka watermarks and offsets are non-negative `i64`
values far below `2^63`, and partition counts are small non-negative `i32`
values, so the embedding uses `Nat`/`Int` where no overflow can occur.
-/

namespace Kafkust

/-- SASL authentication mechanism of a cluster profile
(`SaslMechanism` in `domain/cluster/cluster.rs`). -/
inductive SaslMechanism where
  | Plain
  | ScramSha256
  | ScramSha512
  | Gssapi
  | OAuthBearer
deriving DecidableEq

/-- Security configuration of a cluster profile
(`SecurityConfig` in `domain/cluster/cluster.rs`). -/
inductive SecurityConfig where
  | Plaintext : SecurityConfig
  | Ssl (ca_location certificate_location key_location key_password : Option String)
  | SaslSsl (mechanism : SaslMechanism) (username : String) (ca_location : Option String)
deriving DecidableEq

/-- Cluster identifiers are UUIDs; the embedding carries a UUID as its
canonical string rendering, which is how the Rust code stores and compares it
(`cluster.id.to_string()`). -/
abbrev Uuid := String

/-- Models `Uuid::to_string`; with UUIDs carried as canonical strings this is
the identity. -/
def uuidToString (u : Uuid) : String := u

/-- Models `Uuid::parse_str(s).unwrap_or_default()` as used by
`list_clusters`. It is only ever applied to strings produced by
`uuidToString`, on which the uuid crate guarantees `parse_str` succeeds as a left
inverse of `to_string`, so the model returns the string unchanged. -/
def parseUuidOrDefault (s : String) : Uuid := s

/-- A stored cluster connection profile (`Cluster` in
`domain/cluster/cluster.rs`). -/
structure Cluster where
  id : Uuid
  name : String
  brokers : String
  security : SecurityConfig
deriving DecidableEq

/-- A consumed message (`KafkaMessage` in `domain/topic.rs`). -/
structure KafkaMessage where
  partition : Int
  offset : Int
  timestamp : Option Int
  key : Option String
  payload : Option String
deriving DecidableEq

/-- An rdkafka `ClientConfig` is a key-value map; the embedding keeps the
entries as an association list in insertion order. -/
abbrev ClientConfig := List (String × String)

/-- Models `ClientConfig::set`: overwrite the value when the key is already
present, otherwise append the pair. -/
def setParam (cfg : ClientConfig) (k v : String) : ClientConfig :=
  if (cfg.map Prod.fst).contains k then
    cfg.map (fun p => if p.1 = k then (k, v) else p)
  else
    cfg ++ [(k, v)]

/-- Models the `if let Some(x) = o { config.set(k, x) }` pattern of
`create_config`. -/
def setOpt (cfg : ClientConfig) (k : String) (o : Option String) : ClientConfig :=
  match o with
  | some v => setParam cfg k v
  | none => cfg

/-- Wire string of a SASL mechanism, as produced by the `match mechanism`
in `create_config` (and identically in `save_cluster`). -/
def saslMechanismWire : SaslMechanism → String
  | SaslMechanism.Plain => "PLAIN"
  | SaslMechanism.ScramSha256 => "SCRAM-SHA-256"
  | SaslMechanism.ScramSha512 => "SCRAM-SHA-512"
  | SaslMechanism.Gssapi => "GSSAPI"
  | SaslMechanism.OAuthBearer => "OAUTHBEARER"

/-- Embedding of `KafkaInfrastructure::create_config`
(`infrastructure/kafka.rs`, lines 19-71). -/
def create_config (cluster : Cluster) (password : Option String) : ClientConfig :=
  let cfg := setParam [] "bootstrap.servers" cluster.brokers
  match cluster.security with
  | SecurityConfig.Plaintext =>
      setParam cfg "security.protocol" "plaintext"
  | SecurityConfig.Ssl ca cert key kp =>
      let cfg := setParam cfg "security.protocol" "ssl"
      let cfg := setOpt cfg "ssl.ca.location" ca
      let cfg := setOpt cfg "ssl.certificate.location" cert
      let cfg := setOpt cfg "ssl.key.location" key
      setOpt cfg "ssl.key.password" kp
  | SecurityConfig.SaslSsl mech user ca =>
      let cfg := setParam cfg "security.protocol" "sasl_ssl"
      let cfg := setParam cfg "sasl.mechanism" (saslMechanismWire mech)
      let cfg := setParam cfg "sasl.username" user
      let cfg := setOpt cfg "sasl.password" password
      setOpt cfg "ssl.ca.location" ca

/-- Keys of a connection parameter set. -/
def paramKeys (cfg : ClientConfig) : List String := cfg.map Prod.fst

/-- Value stored under a key of a connection parameter set. -/
def lookupParam (cfg : ClientConfig) (k : String) : Option String :=
  (cfg.find? (fun p => p.1 == k)).map Prod.snd

/-- Modelled from the words of the spec (section 4.1): the protocol key value the
spec prescribes for each SecurityMode variant. -/
def specProtocolOf : SecurityConfig → String
  | SecurityConfig.Plaintext => "plaintext"
  | SecurityConfig.Ssl _ _ _ _ => "ssl"
  | SecurityConfig.SaslSsl _ _ _ => "sasl_ssl"

/-- A key emitted only when its optional source value is present. -/
def optKey (k : String) (o : Option String) : List String :=
  match o with
  | some _ => [k]
  | none => []

/-- Modelled from the words of the spec (sections 4.1 and 8): the keys implied by
the non-absent input fields — the always-set broker list and protocol keys,
plus, per variant, the optional TLS paths and passphrase only when present,
and for SASL the mechanism and username always and the password only when a
secret is supplied. -/
def specImpliedKeys (cluster : Cluster) (password : Option String) : List String :=
  ["bootstrap.servers", "security.protocol"] ++
  match cluster.security with
  | SecurityConfig.Plaintext => []
  | SecurityConfig.Ssl ca cert key kp =>
      optKey "ssl.ca.location" ca ++ optKey "ssl.certificate.location" cert ++
      optKey "ssl.key.location" key ++ optKey "ssl.key.password" kp
  | SecurityConfig.SaslSsl _ _ ca =>
      ["sasl.mechanism", "sasl.username"] ++ optKey "sasl.password" password ++
      optKey "ssl.ca.location" ca

/-- Start offset computed by `consume_messages` for one partition
(`infrastructure/kafka.rs`, line 233): the Rust expression is
`(*high as usize).saturating_sub(max_messages / partition_count as usize)`.
High watermarks are non-negative, so the `i64` to `usize` cast is
value-preserving and `Nat` subtraction models `saturating_sub` exactly. -/
def start_offset (high max_messages partition_count : Nat) : Nat :=
  high - max_messages / partition_count

/-- Embedding of the offset-window loop of `consume_messages`
(`infrastructure/kafka.rs`, lines 231-237): one iteration per fetched
watermark triple `(partition, low, high)`. The division
`max_messages / partition_count` is evaluated inside the loop body; in Rust a
`usize` division by zero panics, which the embedding renders as `none`. -/
def offsetWindowLoop (max_messages partition_count : Nat)
    (watermarks : List (Nat × Nat × Nat)) : Option (List (Nat × Nat)) :=
  match watermarks with
  | [] => some []
  | (p, _, high) :: rest =>
      if partition_count = 0 then none
      else
        match offsetWindowLoop max_messages partition_count rest with
        | some tl => some ((p, start_offset high max_messages partition_count) :: tl)
        | none => none

/-- Embedding of the sequential watermark fetch of `consume_messages`
(`infrastructure/kafka.rs`, lines 220-229): one `(partition, low, high)`
triple per partition `0..partition_count`, where `wm p` is the watermark pair
the broker reports for partition `p`. -/
def fetchWatermarks (partition_count : Nat) (wm : Nat → Nat × Nat) :
    List (Nat × Nat × Nat) :=
  (List.range partition_count).map (fun p => (p, (wm p).1, (wm p).2))

/-- Outcome of one `consumer.poll(timeout)` call in `consume_messages`:
a delivered record (already projected to a `KafkaMessage`, matching the
per-field decode at lines 254-260), a per-record delivery error (logged and
skipped), or an empty poll. -/
inductive PollOutcome where
  | message (msg : KafkaMessage)
  | failure
  | empty
deriving DecidableEq

/-- The fixed attempt budget of the poll loop (`max_attempts` at line 245). -/
def max_attempts : Nat := 50

/-- Embedding of the bounded poll loop of `consume_messages`
(`infrastructure/kafka.rs`, lines 247-273). `polls n` is the outcome of the
n-th poll actually performed; the result pairs the final buffer with the
number of polls performed. Each iteration first stops if the buffer has
reached `max_messages`; otherwise it polls, appending a delivered record,
skipping a delivery error, and on an empty poll retrying when the buffer is
empty and stopping when it is not. -/
def consumeLoop (max_messages : Nat) (polls : Nat → PollOutcome) :
    Nat → Nat → List KafkaMessage → List KafkaMessage × Nat
  | 0, pollCount, buf => (buf, pollCount)
  | fuel + 1, pollCount, buf =>
      if max_messages ≤ buf.length then (buf, pollCount)
      else
        match polls pollCount with
        | PollOutcome.message m =>
            consumeLoop max_messages polls fuel (pollCount + 1) (buf ++ [m])
        | PollOutcome.failure =>
            consumeLoop max_messages polls fuel (pollCount + 1) buf
        | PollOutcome.empty =>
            if buf.isEmpty then consumeLoop max_messages polls fuel (pollCount + 1) buf
            else (buf, pollCount + 1)

/-- Comparator of the final sort of `consume_messages` (line 275):
`messages.sort_by(|a, b| b.offset.cmp(&a.offset))` sorts so that each element
is related to every later one by `offsetGE`. -/
def offsetGE (a b : KafkaMessage) : Prop := b.offset ≤ a.offset

instance : DecidableRel offsetGE :=
  fun a b => inferInstanceAs (Decidable (b.offset ≤ a.offset))

instance : IsTotal KafkaMessage offsetGE :=
  ⟨fun a b => le_total b.offset a.offset⟩

instance : IsTrans KafkaMessage offsetGE :=
  ⟨fun _ _ _ hab hbc => le_trans hbc hab⟩

/-- The descending-offset sort at the end of `consume_messages`. Rust
`sort_by` is a stable comparator sort, and a stable sort for a total
transitive comparator is unique, so the stable `List.insertionSort` computes
the same list. -/
def sortByOffsetDesc (l : List KafkaMessage) : List KafkaMessage :=
  List.insertionSort offsetGE l

/-- The poll phase of `consume_messages` (lines 243-277): run the bounded
poll loop on an empty buffer and sort the buffer by descending offset.
Returns the message list together with the number of polls performed. -/
def consume_messages_poll (max_messages : Nat) (polls : Nat → PollOutcome) :
    List KafkaMessage × Nat :=
  let r := consumeLoop max_messages polls max_attempts 0 []
  (sortByOffsetDesc r.1, r.2)

/-- Embedding of `KafkaInfrastructure::get_topic_message_count`
(`infrastructure/kafka.rs`, lines 280-310): starting from `0`, for each
partition `0..partition_count` add `high - low`, where `wm p` is the
watermark pair reported for partition `p`. Watermarks are far below `2^63`,
so `Int` arithmetic models the `i64` accumulation without overflow. -/
def get_topic_message_count (partition_count : Nat) (wm : Nat → Int × Int) : Int :=
  (List.range partition_count).foldl (fun acc p => acc + ((wm p).2 - (wm p).1)) 0

/-- Modelled from the words of the spec (sections 4.5 and 8): the sum over
all partitions of `(high - low)`. -/
def specWatermarkSpanSum (partition_count : Nat) (wm : Nat → Int × Int) : Int :=
  ((List.range partition_count).map (fun p => (wm p).2 - (wm p).1)).sum

/-- One element of the `create_topics` result vector in
`KafkaInfrastructure::create_topic` (`infrastructure/kafka.rs`, lines
142-158): either the created topic name, or the rejected topic name paired
with the provider status code (modelled by its debug rendering). -/
inductive TopicResult where
  | okTopic (name : String)
  | errTopic (name : String) (code : String)
deriving DecidableEq

/-- A single-quote character, written via its code point. -/
def squote : String := String.singleton (Char.ofNat 39)

/-- The error message built at lines 151-155:
`format!("Failed to create topic '{}': {:?}", topic, code)`. -/
def createTopicErrorMsg (topic code : String) : String :=
  "Failed to create topic " ++ squote ++ topic ++ squote ++ ": " ++ code

/-- Embedding of the result-inspection loop of `create_topic` (lines
147-158): scan the per-topic results and return the error for the first
rejected topic, or success when none is rejected. -/
def check_create_results : List TopicResult → Except String Unit
  | [] => Except.ok ()
  | TopicResult.okTopic _ :: rest => check_create_results rest
  | TopicResult.errTopic t c :: _ => Except.error (createTopicErrorMsg t c)

/-- One row of the `clusters` table
(`infrastructure/persistence/sqlite_cluster_repository.rs`, lines 23-34).
The schema has no column for the TLS key passphrase or for any password. -/
structure ClusterRow where
  id : String
  name : String
  brokers : String
  security_type : String
  sasl_mechanism : Option String
  sasl_username : Option String
  ca_location : Option String
  cert_location : Option String
  key_location : Option String
deriving DecidableEq

/-- The column tuple bound by `SqliteClusterRepository::save_cluster`
(lines 42-95). The `Ssl` arm drops `key_password` with a `..` pattern; the
`SaslSsl` arm maps the mechanism with the same wire strings as
`create_config`. -/
def clusterToRow (cluster : Cluster) : ClusterRow :=
  match cluster.security with
  | SecurityConfig.Plaintext =>
      ⟨uuidToString cluster.id, cluster.name, cluster.brokers, "plaintext",
        none, none, none, none, none⟩
  | SecurityConfig.Ssl ca cert key _ =>
      ⟨uuidToString cluster.id, cluster.name, cluster.brokers, "ssl",
        none, none, ca, cert, key⟩
  | SecurityConfig.SaslSsl mech user ca =>
      ⟨uuidToString cluster.id, cluster.name, cluster.brokers, "sasl_ssl",
        some (saslMechanismWire mech), some user, ca, none, none⟩

/-- The mechanism decode of `list_clusters` (lines 127-133): unknown or
absent strings fall back to `Plain`. -/
def parseSaslMechanism : Option String → SaslMechanism
  | some "SCRAM-SHA-256" => SaslMechanism.ScramSha256
  | some "SCRAM-SHA-512" => SaslMechanism.ScramSha512
  | some "GSSAPI" => SaslMechanism.Gssapi
  | some "OAUTHBEARER" => SaslMechanism.OAuthBearer
  | _ => SaslMechanism.Plain

/-- The row decode of `SqliteClusterRepository::list_clusters` (lines
105-149): rebuild a `Cluster` from one row; an `ssl` row always gets
`key_password := none`, a `sasl_ssl` row defaults a missing username to the
empty string, and an unknown security type falls back to `Plaintext`. -/
def rowToCluster (row : ClusterRow) : Cluster :=
  let security :=
    if row.security_type = "plaintext" then SecurityConfig.Plaintext
    else if row.security_type = "ssl" then
      SecurityConfig.Ssl row.ca_location row.cert_location row.key_location none
    else if row.security_type = "sasl_ssl" then
      SecurityConfig.SaslSsl (parseSaslMechanism row.sasl_mechanism)
        (row.sasl_username.getD "") row.ca_location
    else SecurityConfig.Plaintext
  ⟨parseUuidOrDefault row.id, row.name, row.brokers, security⟩

/-- Effect of `save_cluster` on the table contents: `INSERT OR REPLACE` on
the `id` primary key deletes any conflicting row and inserts the new row. -/
def save_cluster (registry : List ClusterRow) (cluster : Cluster) : List ClusterRow :=
  registry.filter (fun r => r.id != uuidToString cluster.id) ++ [clusterToRow cluster]

/-- Effect of `list_clusters`: decode every stored row. -/
def list_clusters (registry : List ClusterRow) : List Cluster :=
  registry.map rowToCluster

/-- A profile with its TLS key passphrase dropped; identity on the other
two security variants. -/
def eraseKeyPassword (cluster : Cluster) : Cluster :=
  match cluster.security with
  | SecurityConfig.Ssl ca cert key _ =>
      { cluster with security := SecurityConfig.Ssl ca cert key none }
  | _ => cluster

/-- The secret vault (`KeyringSecretRepository`) as a map from cluster
identifier strings to stored passwords. -/
def Vault := String → Option String

/-- Effect of `KeyringSecretRepository::save_password` on the vault. -/
def vaultSet (vault : Vault) (cluster_id p : String) : Vault :=
  fun x => if x = cluster_id then some p else vault x

/-- The durable state touched by `ClusterUsecase`: the SQLite cluster
registry and the keyring vault. -/
structure AppState where
  registry : List ClusterRow
  vault : Vault

/-- Embedding of `ClusterUsecase::add_cluster` (`usecase/cluster_usecase.rs`,
lines 28-35): save the profile, then store the password whenever one is
supplied. -/
def add_cluster (st : AppState) (cluster : Cluster) (password : Option String) :
    AppState :=
  let st1 : AppState := ⟨save_cluster st.registry cluster, st.vault⟩
  match password with
  | some p => ⟨st1.registry, vaultSet st1.vault (uuidToString cluster.id) p⟩
  | none => st1

/-- Embedding of `ClusterUsecase::update_cluster`
(`usecase/cluster_usecase.rs`, lines 93-102): save the profile, then store
the password only when one is supplied and it is non-empty. -/
def update_cluster (st : AppState) (cluster : Cluster) (password : Option String) :
    AppState :=
  let st1 : AppState := ⟨save_cluster st.registry cluster, st.vault⟩
  match password with
  | some p =>
      if p.isEmpty then st1
      else ⟨st1.registry, vaultSet st1.vault (uuidToString cluster.id) p⟩
  | none => st1

/-! Helper lemmas shared by several theorems. -/

/-- With at least one partition, the offset-window loop never hits the
division guard and assigns `start_offset` to every fetched partition. -/
theorem offsetWindowLoop_eq_map (max_messages partition_count : Nat)
    (hP : partition_count ≠ 0) (watermarks : List (Nat × Nat × Nat)) :
    offsetWindowLoop max_messages partition_count watermarks
      = some (watermarks.map
          (fun w => (w.1, start_offset w.2.2 max_messages partition_count))) := by
  induction watermarks with
  | nil => rfl
  | cons w rest ih =>
      obtain ⟨p, lo, hi⟩ := w
      simp [offsetWindowLoop, hP, ih]

/-- C1: in `consume_messages`, for every partition with high watermark `h`
the computed start offset equals `max(0, h - floor(maxMessages / P))`, and
the offset-window loop applies exactly this formula to every fetched
partition; for `h = 100`, `maxMessages = 10`, `P = 2` the start offset is
`95`, and for the non-multiple `maxMessages = 11` the remainder is dropped by
integer division, again giving `95` rather than the rounded-up `94`. -/
theorem sample_start_offset_spec (h maxM P : Nat) (hP : 0 < P) :
    (start_offset h maxM P : Int) = max 0 ((h : Int) - ((maxM / P : Nat) : Int))
    ∧ (∀ watermarks, offsetWindowLoop maxM P watermarks
        = some (watermarks.map (fun w => (w.1, start_offset w.2.2 maxM P))))
    ∧ start_offset 100 10 2 = 95
    ∧ start_offset 100 11 2 = 95 := by
  refine ⟨?_, fun ws => offsetWindowLoop_eq_map maxM P hP.ne' ws, by decide, by decide⟩
  simp only [start_offset]
  generalize maxM / P = q
  omega

/-- Witness for the C1 theorem at `h = 100`, `maxMessages = 10`, `P = 2`,
with a two-partition watermark list. -/
theorem sample_start_offset_spec_witness :
    (start_offset 100 10 2 : Int) = max 0 ((100 : Int) - ((10 / 2 : Nat) : Int))
    ∧ offsetWindowLoop 10 2 [(0, 0, 100), (1, 0, 100)]
        = some [(0, start_offset 100 10 2), (1, start_offset 100 10 2)]
    ∧ start_offset 100 10 2 = 95
    ∧ start_offset 100 11 2 = 95 := by
  obtain ⟨h1, h2, h3, h4⟩ := sample_start_offset_spec 100 10 2 (by decide)
  exact ⟨h1, h2 [(0, 0, 100), (1, 0, 100)], h3, h4⟩

/-- C9, amended: the division by the partition count sits inside the
per-partition loop, so on the watermark list actually fetched (one entry per
partition) the operation is total for every partition count, including zero:
with zero partitions the loop body never runs, no division by zero happens,
and the result is the empty assignment rather than a panic. -/
theorem offset_window_no_panic (maxM pc : Nat) (wm : Nat → Nat × Nat) :
    (∃ l, offsetWindowLoop maxM pc (fetchWatermarks pc wm) = some l)
    ∧ offsetWindowLoop maxM 0 (fetchWatermarks 0 wm) = some [] := by
  constructor
  · rcases Nat.eq_zero_or_pos pc with hz | hpos
    · subst hz
      exact ⟨[], rfl⟩
    · exact ⟨_, offsetWindowLoop_eq_map maxM pc hpos.ne' _⟩
  · rfl

/-- C9 counterexample: for a topic whose metadata reports zero partitions the
offset-window computation does not panic (the claimed division by zero never
executes); it returns the empty assignment. -/
theorem offset_window_zero_partitions_cex :
    offsetWindowLoop 10 0 (fetchWatermarks 0 (fun _ => (0, 100))) = some []
    ∧ offsetWindowLoop 10 0 (fetchWatermarks 0 (fun _ => (0, 100))) ≠ none := by
  decide

/-- C5: for every security variant and every optional secret, the built
connection parameter set maps the variant to its protocol string, its keys
are exactly the keys implied by the non-absent input fields (so no key is
emitted whose source value is absent), and the SASL mechanism key carries the
wire string of the mechanism. -/
theorem create_config_spec (c : Cluster) (pw : Option String) :
    lookupParam (create_config c pw) "security.protocol"
      = some (specProtocolOf c.security)
    ∧ paramKeys (create_config c pw) = specImpliedKeys c pw
    ∧ (∀ mech user ca, c.security = SecurityConfig.SaslSsl mech user ca →
        lookupParam (create_config c pw) "sasl.mechanism"
          = some (saslMechanismWire mech)) := by
  obtain ⟨i, n, b, sec⟩ := c
  cases sec with
  | Plaintext =>
      refine ⟨?_, ?_, ?_⟩
      · simp [create_config, setParam, setOpt, lookupParam, specProtocolOf]
      · simp [create_config, setParam, setOpt, paramKeys, specImpliedKeys]
      · intro mech user ca hEq
        exact SecurityConfig.noConfusion hEq
  | Ssl ca cert key kp =>
      refine ⟨?_, ?_, ?_⟩
      · cases ca <;> cases cert <;> cases key <;> cases kp <;>
          simp [create_config, setParam, setOpt, lookupParam, specProtocolOf]
      · cases ca <;> cases cert <;> cases key <;> cases kp <;>
          simp [create_config, setParam, setOpt, paramKeys, specImpliedKeys, optKey]
      · intro mech user ca2 hEq
        exact SecurityConfig.noConfusion hEq
  | SaslSsl mech user ca =>
      refine ⟨?_, ?_, ?_⟩
      · cases pw <;> cases ca <;>
          simp [create_config, setParam, setOpt, lookupParam, specProtocolOf]
      · cases pw <;> cases ca <;>
          simp [create_config, setParam, setOpt, paramKeys, specImpliedKeys, optKey]
      · intro mech2 user2 ca2 hEq
        injection hEq with e1 e2 e3
        subst e1
        cases pw <;> cases ca <;>
          simp [create_config, setParam, setOpt, lookupParam]

/-- A SASL profile used to instantiate the C5 theorem. -/
def saslDemoCluster : Cluster :=
  ⟨"id-2", "demo-sasl", "broker:9093",
    SecurityConfig.SaslSsl SaslMechanism.ScramSha256 "alice" (some "/ca.pem")⟩

/-- Witness for the C5 theorem at a SASL profile with a supplied secret. -/
theorem create_config_spec_witness :
    lookupParam (create_config saslDemoCluster (some "s3cret")) "security.protocol"
      = some (specProtocolOf saslDemoCluster.security)
    ∧ paramKeys (create_config saslDemoCluster (some "s3cret"))
      = specImpliedKeys saslDemoCluster (some "s3cret")
    ∧ lookupParam (create_config saslDemoCluster (some "s3cret")) "sasl.mechanism"
      = some (saslMechanismWire SaslMechanism.ScramSha256) := by
  obtain ⟨h1, h2, h3⟩ := create_config_spec saslDemoCluster (some "s3cret")
  exact ⟨h1, h2, h3 SaslMechanism.ScramSha256 "alice" (some "/ca.pem") rfl⟩

/-- The poll loop never grows the buffer beyond `max_messages`. -/
theorem consumeLoop_length_le (N : Nat) (polls : Nat → PollOutcome) :
    ∀ fuel pc buf, buf.length ≤ N → ((consumeLoop N polls fuel pc buf).1).length ≤ N := by
  intro fuel
  induction fuel with
  | zero =>
      intro pc buf hb
      simpa [consumeLoop] using hb
  | succ fuel ih =>
      intro pc buf hb
      rw [consumeLoop]
      by_cases hc : N ≤ buf.length
      · simpa [hc] using hb
      · rw [if_neg hc]
        cases hpoll : polls pc with
        | message m =>
            exact ih (pc + 1) (buf ++ [m]) (by simp; omega)
        | failure => exact ih (pc + 1) buf hb
        | empty =>
            by_cases he : buf.isEmpty
            · simp only [he, if_pos]
              exact ih (pc + 1) buf hb
            · simpa [he] using hb

/-- The poll loop performs at most `fuel` polls beyond the initial count. -/
theorem consumeLoop_pollCount_le (N : Nat) (polls : Nat → PollOutcome) :
    ∀ fuel pc buf, (consumeLoop N polls fuel pc buf).2 ≤ pc + fuel := by
  intro fuel
  induction fuel with
  | zero =>
      intro pc buf
      simp [consumeLoop]
  | succ fuel ih =>
      intro pc buf
      rw [consumeLoop]
      by_cases hc : N ≤ buf.length
      · simp [hc]
      · rw [if_neg hc]
        cases hpoll : polls pc with
        | message m => exact le_trans (ih (pc + 1) (buf ++ [m])) (by omega)
        | failure => exact le_trans (ih (pc + 1) buf) (by omega)
        | empty =>
            by_cases he : buf.isEmpty
            · simp only [he, if_pos]
              exact le_trans (ih (pc + 1) buf) (by omega)
            · simp [he]

/-- When the requested maximum is positive and every poll comes back empty,
the loop keeps the buffer empty and consumes its whole fuel. -/
theorem consumeLoop_all_empty (N : Nat) (polls : Nat → PollOutcome)
    (hN : 0 < N) (hE : ∀ n, polls n = PollOutcome.empty) :
    ∀ fuel pc, consumeLoop N polls fuel pc [] = ([], pc + fuel) := by
  intro fuel
  induction fuel with
  | zero => intro pc; simp [consumeLoop]
  | succ fuel ih =>
      intro pc
      rw [consumeLoop]
      rw [if_neg (by simpa using hN.ne')]
      rw [hE pc]
      simp only [List.isEmpty_nil, if_pos]
      rw [ih (pc + 1)]
      congr 1
      omega

/-- The descending-offset sort keeps the number of messages. -/
theorem length_sortByOffsetDesc (l : List KafkaMessage) :
    (sortByOffsetDesc l).length = l.length :=
  (List.perm_insertionSort offsetGE l).length_eq

/-- C2: for every requested maximum `N` and every sequence of poll outcomes
(hence for every partition count), `consume_messages` returns at most `N`
messages, and `N = 0` returns the empty list. -/
theorem sample_length_bound (N : Nat) (polls : Nat → PollOutcome) :
    (consume_messages_poll N polls).1.length ≤ N
    ∧ (consume_messages_poll 0 polls).1 = [] := by
  constructor
  · have hb := consumeLoop_length_le N polls max_attempts 0 [] (by simp)
    simpa [consume_messages_poll, length_sortByOffsetDesc] using hb
  · have h0 := consumeLoop_length_le 0 polls max_attempts 0 [] (by simp)
    have hlen : (consume_messages_poll 0 polls).1.length = 0 := by
      have := length_sortByOffsetDesc (consumeLoop 0 polls max_attempts 0 []).1
      simp only [consume_messages_poll]
      omega
    exact List.eq_nil_of_length_eq_zero hlen

/-- C3: for every sequence of poll outcomes, the list returned by
`consume_messages` is sorted by non-increasing offset: each element relates
to the next by having an offset at least as large. -/
theorem sample_sorted_desc (N : Nat) (polls : Nat → PollOutcome) :
    List.Chain' (fun a b => b.offset ≤ a.offset) (consume_messages_poll N polls).1 := by
  have hs : List.Sorted offsetGE
      (List.insertionSort offsetGE (consumeLoop N polls max_attempts 0 []).1) :=
    List.sorted_insertionSort offsetGE _
  exact List.Pairwise.chain' hs

/-- C4, amended: the poll loop performs at most 50 poll attempts; on an empty
poll it stops early when the buffer already holds a message and keeps
retrying while the buffer is empty; consequently, when every poll is empty
the call returns the empty list after exhausting all 50 attempts whenever
`maxMessages` is at least 1, while for `maxMessages = 0` the loop exits
before the first poll and returns the empty list after 0 attempts. -/
theorem sample_poll_budget (N : Nat) (polls : Nat → PollOutcome) :
    (consume_messages_poll N polls).2 ≤ max_attempts
    ∧ (∀ fuel pc buf, polls pc = PollOutcome.empty → buf ≠ [] → buf.length < N →
        consumeLoop N polls (fuel + 1) pc buf = (buf, pc + 1))
    ∧ (∀ fuel pc, polls pc = PollOutcome.empty → 0 < N →
        consumeLoop N polls (fuel + 1) pc [] = consumeLoop N polls fuel (pc + 1) [])
    ∧ ((∀ n, polls n = PollOutcome.empty) →
        consume_messages_poll N polls = ([], if N = 0 then 0 else max_attempts)) := by
  refine ⟨?_, ?_, ?_, ?_⟩
  · simpa [consume_messages_poll] using consumeLoop_pollCount_le N polls max_attempts 0 []
  · intro fuel pc buf hpoll hne hlt
    rw [consumeLoop, if_neg (by omega), hpoll]
    simp [List.isEmpty_eq_true, hne]
  · intro fuel pc hpoll hN
    rw [consumeLoop, if_neg (by simpa using hN.ne'), hpoll]
    simp
  · intro hE
    rcases Nat.eq_zero_or_pos N with hz | hpos
    · subst hz
      simp [consume_messages_poll, consumeLoop, max_attempts, sortByOffsetDesc]
    · rw [consume_messages_poll]
      rw [consumeLoop_all_empty N polls hpos hE max_attempts 0]
      simp [sortByOffsetDesc, if_neg hpos.ne']

/-- A poll sequence that never delivers a record: a topic with zero
messages. -/
def emptyPolls : Nat → PollOutcome := fun _ => PollOutcome.empty

/-- A concrete message used to instantiate the early-stop clause. -/
def sampleMsg : KafkaMessage := ⟨0, 5, none, none, none⟩

/-- Witness for the C4 theorem at `maxMessages = 2` with every poll empty:
the budget bound, the early stop on a non-empty buffer, the retry on an
empty buffer, and the full 50-attempt drain of an empty topic. -/
theorem sample_poll_budget_witness :
    (consume_messages_poll 2 emptyPolls).2 ≤ max_attempts
    ∧ consumeLoop 2 emptyPolls 4 0 [sampleMsg] = ([sampleMsg], 1)
    ∧ consumeLoop 2 emptyPolls 4 0 [] = consumeLoop 2 emptyPolls 3 1 []
    ∧ consume_messages_poll 2 emptyPolls = ([], if 2 = 0 then 0 else max_attempts) := by
  obtain ⟨h1, h2, h3, h4⟩ := sample_poll_budget 2 emptyPolls
  exact ⟨h1, h2 3 0 [sampleMsg] rfl (by simp) (by simp),
    h3 3 0 rfl (by decide), h4 (fun n => rfl)⟩

/-- C4 counterexample: with `maxMessages = 0` and every poll empty, the call
returns the empty list after 0 poll attempts, not only after exhausting all
50 attempts. -/
theorem sample_poll_budget_cex :
    (consume_messages_poll 0 emptyPolls).1 = []
    ∧ (consume_messages_poll 0 emptyPolls).2 = 0
    ∧ (consume_messages_poll 0 emptyPolls).2 ≠ max_attempts := by
  decide

/-- Accumulating a mapped value over a list equals adding its mapped sum. -/
theorem foldl_add_eq_sum (f : Nat → Int) :
    ∀ (l : List Nat) (init : Int),
      l.foldl (fun acc p => acc + f p) init = init + (l.map f).sum := by
  intro l
  induction l with
  | nil => intro init; simp
  | cons a l ih => intro init; simp [ih]; ring

/-- C7: `get_topic_message_count` returns exactly the sum over all
partitions of `high - low`; two partitions with watermarks `(0, 100)` and
`(0, 50)` yield `150`. -/
theorem estimate_count_spec (partition_count : Nat) (wm : Nat → Int × Int) :
    get_topic_message_count partition_count wm
      = specWatermarkSpanSum partition_count wm
    ∧ get_topic_message_count 2
        (fun p => if p = 0 then ((0 : Int), (100 : Int)) else (0, 50)) = 150 := by
  constructor
  · simpa [get_topic_message_count, specWatermarkSpanSum] using
      foldl_add_eq_sum (fun p => (wm p).2 - (wm p).1) (List.range partition_count) 0
  · decide

/-- C8: `create_topic` fails whenever any requested topic is rejected by the
broker, and the error for a rejected topic embeds, at fixed positions, the
rejected topic name and the provider status code. -/
theorem create_topic_error_spec :
    (∀ results t c, TopicResult.errTopic t c ∈ results →
        ∃ e, check_create_results results = Except.error e)
    ∧ (∃ a b, ∀ t c, check_create_results [TopicResult.errTopic t c]
        = Except.error (a ++ t ++ (b ++ c))) := by
  constructor
  · intro results
    induction results with
    | nil => intro t c h; simp at h
    | cons r rest ih =>
        intro t c h
        cases r with
        | okTopic nm =>
            rcases List.mem_cons.mp h with heq | hmem
            · exact TopicResult.noConfusion heq
            · obtain ⟨e, he⟩ := ih t c hmem
              exact ⟨e, by simpa [check_create_results] using he⟩
        | errTopic t2 c2 =>
            exact ⟨createTopicErrorMsg t2 c2, rfl⟩
  · refine ⟨"Failed to create topic " ++ squote, squote ++ ": ", ?_⟩
    intro t c
    simp [check_create_results, createTopicErrorMsg, String.append_assoc]

/-- Witness for the C8 theorem: a creation attempt rejected with an
already-exists status fails with an error. -/
theorem create_topic_error_spec_witness :
    ∃ e, check_create_results [TopicResult.errTopic "orders" "TopicAlreadyExists"]
      = Except.error e :=
  create_topic_error_spec.1 [TopicResult.errTopic "orders" "TopicAlreadyExists"]
    "orders" "TopicAlreadyExists" (by simp)

/-- C6, amended: saving a profile and re-listing it reproduces every field
except the TLS key passphrase, which the registry schema does not store and
which is re-listed as absent; the SASL secret is never a profile field and
lives only in the vault under the profile identifier. -/
theorem save_list_round_trip (registry : List ClusterRow) (cluster : Cluster) :
    rowToCluster (clusterToRow cluster) = eraseKeyPassword cluster
    ∧ eraseKeyPassword cluster ∈ list_clusters (save_cluster registry cluster) := by
  have h1 : rowToCluster (clusterToRow cluster) = eraseKeyPassword cluster := by
    obtain ⟨i, n, b, sec⟩ := cluster
    cases sec with
    | Plaintext =>
        simp [clusterToRow, rowToCluster, eraseKeyPassword, parseUuidOrDefault,
          uuidToString]
    | Ssl ca cert key kp =>
        simp [clusterToRow, rowToCluster, eraseKeyPassword, parseUuidOrDefault,
          uuidToString]
    | SaslSsl mech user ca =>
        cases mech <;>
          simp [clusterToRow, rowToCluster, eraseKeyPassword, parseSaslMechanism,
            saslMechanismWire, parseUuidOrDefault, uuidToString]
  refine ⟨h1, ?_⟩
  rw [← h1]
  simp only [list_clusters, save_cluster, List.map_append]
  exact List.mem_append_right _ (by simp)

/-- A TLS profile carrying a key passphrase. -/
def roundTripCex : Cluster :=
  ⟨"0a0a", "local", "localhost:9092",
    SecurityConfig.Ssl none none none (some "passphrase")⟩

/-- C6 counterexample: saving a TLS profile whose key passphrase is present
and re-listing it does not reproduce the profile — the passphrase comes back
absent, and the passphrase is not in the vault either (the repository never
writes it there). -/
theorem save_list_round_trip_cex :
    list_clusters (save_cluster [] roundTripCex) ≠ [roundTripCex]
    ∧ list_clusters (save_cluster [] roundTripCex) = [eraseKeyPassword roundTripCex] := by
  decide

/-- C10: `update_cluster` always persists the profile to the registry, but
writes the vault only when the supplied password is present and non-empty;
an absent or empty password leaves the vault untouched, whereas
`add_cluster` stores any supplied password, the empty string included. -/
theorem update_cluster_vault_frame (st : AppState) (cluster : Cluster) :
    (∀ password, (update_cluster st cluster password).registry
        = save_cluster st.registry cluster)
    ∧ (update_cluster st cluster none).vault = st.vault
    ∧ (update_cluster st cluster (some "")).vault = st.vault
    ∧ (∀ p, p.isEmpty = false → (update_cluster st cluster (some p)).vault
        = vaultSet st.vault (uuidToString cluster.id) p)
    ∧ (∀ p, (add_cluster st cluster (some p)).vault
        = vaultSet st.vault (uuidToString cluster.id) p)
    ∧ (add_cluster st cluster none).vault = st.vault := by
  refine ⟨?_, rfl, ?_, ?_, fun p => rfl, rfl⟩
  · intro password
    rcases password with _ | p
    · rfl
    · by_cases hp : p.isEmpty <;> simp [update_cluster, hp]
  · simp [update_cluster, show ("" : String).isEmpty = true from rfl]
  · intro p hp
    simp [update_cluster, hp]

/-- An application state used to instantiate the C10 theorem. -/
def demoState : AppState := ⟨[], fun _ => none⟩

/-- A plaintext profile used to instantiate the C10 theorem. -/
def demoCluster : Cluster :=
  ⟨"id-1", "demo", "localhost:9092", SecurityConfig.Plaintext⟩

/-- Witness for the C10 theorem: a non-empty password is written to the
vault, the empty password is not, and the registry write always happens. -/
theorem update_cluster_vault_frame_witness :
    (update_cluster demoState demoCluster (some "pw")).vault
      = vaultSet demoState.vault (uuidToString demoCluster.id) "pw"
    ∧ (update_cluster demoState demoCluster (some "")).vault = demoState.vault
    ∧ (update_cluster demoState demoCluster none).registry
      = save_cluster demoState.registry demoCluster := by
  obtain ⟨h1, h2, h3, h4, h5, h6⟩ := update_cluster_vault_frame demoState demoCluster
  exact ⟨h4 "pw" (by decide), h3, h1 none⟩

end Kafkust
